import Mathlib

/-!
Verification development for the skylark drone-operations coordinator.

The definitions below are a shallow embedding of the repository's Python
sources (`src/utils.py`, `src/roster_manager.py`, `src/inventory_manager.py`,
`src/assignment_tracker.py`, `src/conflict_detector.py`, `src/sheets_sync.py`).
Pandas dataframes are modelled as Lean lists of records; a pandas `NaN` cell is
modelled as `none` of an `Option` type; the record store is modelled through
the local-CSV fallback path of `sheets_sync.py`, which has the same logical
effect on the data as the remote path.  Monetary cells (daily rates, budgets,
costs) are modelled as exact integers, as they are in the repository's data;
float rounding is outside the model.  `str.lower` is modelled for ASCII text,
and the pandas
`str.contains` filter is modelled as literal (case-insensitive) substring
search, which is its behaviour on metacharacter-free patterns.
-/

/-- ASCII lower-casing of one character (model of Python `str.lower` per char). -/
def lowerChar (c : Char) : Char :=
  if 'A' ≤ c ∧ c ≤ 'Z' then Char.ofNat (c.toNat + 32) else c

/-- Model of Python `str.lower()` for ASCII strings. -/
def strLower (s : String) : String :=
  String.mk (s.toList.map lowerChar)

/-- Model of Python `str(x)` on a cell that is either a string or `NaN`:
`str(nan)` is the string `"nan"`. -/
def pyStr : Option String → String
  | none => "nan"
  | some s => s

/-- Does `hay` start with `needle`? (helper for substring search). -/
def startsWithL : List Char → List Char → Bool
  | [], _ => true
  | _ :: _, [] => false
  | a :: as, b :: bs => a = b && startsWithL as bs

/-- Model of the Python substring test `needle in hay` (case-sensitive). -/
def hasSub (needle : List Char) : List Char → Bool
  | [] => startsWithL needle []
  | c :: rest => startsWithL needle (c :: rest) || hasSub needle rest

/-- Model of the Python substring test `needle in hay` on strings. -/
def strContains (hay needle : String) : Bool :=
  hasSub needle.toList hay.toList

/-- Case-insensitive substring test, model of
`Series.str.contains(pat, case=False)` on a present string value. -/
def strContainsCI (hay pat : String) : Bool :=
  strContains (strLower hay) (strLower pat)

/-- Model of `Series.str.contains(pat, case=False, na=False)`:
a missing (`NaN`) value never matches. -/
def seriesContains (v : Option String) (pat : String) : Bool :=
  match v with
  | none => false
  | some s => strContainsCI s pat

/-- Python whitespace characters stripped by `str.strip()`. -/
def isPySpace (c : Char) : Bool :=
  c = ' ' || c = '\t' || c = '\n' || c = '\r' || c = Char.ofNat 11 || c = Char.ofNat 12

/-- Model of Python `str.strip()`. -/
def stripChars (l : List Char) : List Char :=
  ((l.dropWhile isPySpace).reverse.dropWhile isPySpace).reverse

/-- Model of Python `s.split(",")`: splitting on a single comma, always at
least one field. -/
def splitComma : List Char → List (List Char)
  | [] => [[]]
  | c :: rest =>
    if c = ',' then [] :: splitComma rest
    else
      match splitComma rest with
      | [] => [[c]]
      | g :: gs => (c :: g) :: gs

/-- Python truthiness of an optional string: `None` and `""` are falsy. -/
def optStrTruthy : Option String → Bool
  | none => false
  | some s => s ≠ ""

/-- A calendar date, as produced by `utils.parse_date`. -/
structure Date where
  year : Nat
  month : Nat
  day : Nat
deriving DecidableEq

/-- Gregorian leap-year rule used by Python `datetime`. -/
def isLeap (y : Nat) : Bool :=
  (y % 4 = 0 && y % 100 ≠ 0) || y % 400 = 0

/-- Number of days in a month of a given year. -/
def daysInMonth (y m : Nat) : Nat :=
  if m = 2 then (if isLeap y then 29 else 28)
  else if m = 4 || m = 6 || m = 9 || m = 11 then 30
  else 31

/-- Days in year `y` strictly before month `m`. -/
def daysBeforeMonth (y m : Nat) : Nat :=
  let base :=
    if m = 1 then 0 else if m = 2 then 31 else if m = 3 then 59
    else if m = 4 then 90 else if m = 5 then 120 else if m = 6 then 151
    else if m = 7 then 181 else if m = 8 then 212 else if m = 9 then 243
    else if m = 10 then 273 else if m = 11 then 304 else 334
  if 3 ≤ m ∧ isLeap y then base + 1 else base

/-- Proleptic Gregorian ordinal of a date, as in Python
`datetime.toordinal()` (`0001-01-01` is day 1).  Python `datetime` comparison
and `timedelta.days` on midnight datetimes coincide with comparison and
difference of these ordinals. -/
def toOrdinal (d : Date) : Nat :=
  let y := d.year - 1
  365 * y + y / 4 - y / 100 + y / 400 + daysBeforeMonth d.year d.month + d.day

/-- Is `c` an ASCII digit? -/
def isDig (c : Char) : Bool :=
  decide ('0' ≤ c) && decide (c ≤ '9')

/-- Numeric value of an ASCII digit. -/
def digVal (c : Char) : Nat := c.toNat - 48

/-- Day-of-month field of `strptime(s, "%Y-%m-%d")`: the `%d` pattern
`3[01]|[12]\d|0[1-9]|[1-9]` with the alternatives tried in order, followed by
the end-of-input check (no backtracking is triggered by that check). -/
def finishDay : List Char → Option Nat
  | [c1] => if isDig c1 && c1 ≠ '0' then some (digVal c1) else none
  | [c1, c2] =>
    if c1 = '3' && (c2 = '0' || c2 = '1') then some (30 + digVal c2)
    else if (c1 = '1' || c1 = '2') && isDig c2 then some (10 * digVal c1 + digVal c2)
    else if c1 = '0' && isDig c2 && c2 ≠ '0' then some (digVal c2)
    else none
  | _ => none

/-- Month and day fields of `strptime(s, "%Y-%m-%d")` applied to the input
after `"YYYY-"`: the `%m` pattern `1[0-2]|0[1-9]|[1-9]`, each alternative
continued by the literal `-` and the day pattern, with regex backtracking
between the alternatives. -/
def monthDay (l : List Char) : Option (Nat × Nat) :=
  let two : Option (Nat × Nat) :=
    match l with
    | c1 :: c2 :: '-' :: rest =>
      if c1 = '1' && (c2 = '0' || c2 = '1' || c2 = '2') then
        (finishDay rest).map (fun d => (10 + digVal c2, d))
      else if c1 = '0' && isDig c2 && c2 ≠ '0' then
        (finishDay rest).map (fun d => (digVal c2, d))
      else none
    | _ => none
  match two with
  | some md => some md
  | none =>
    match l with
    | c1 :: '-' :: rest =>
      if isDig c1 && c1 ≠ '0' then (finishDay rest).map (fun d => (digVal c1, d))
      else none
    | _ => none

/-- Model of `utils.parse_date`: `datetime.strptime(date_str, "%Y-%m-%d")`
(exactly four year digits, 1-2 month and day digits, full-string match,
calendar validation by the `datetime` constructor), returning `none` on any
failure. -/
def parse_date (s : String) : Option Date :=
  match s.toList with
  | y1 :: y2 :: y3 :: y4 :: '-' :: rest =>
    if isDig y1 && isDig y2 && isDig y3 && isDig y4 then
      match monthDay rest with
      | some (m, d) =>
        let y := 1000 * digVal y1 + 100 * digVal y2 + 10 * digVal y3 + digVal y4
        if 1 ≤ y ∧ d ≤ daysInMonth y m then some ⟨y, m, d⟩ else none
      | none => none
    else none
  | _ => none

/-- Model of `utils.dates_overlap`. -/
def dates_overlap (start1 end1 start2 end2 : String) : Bool :=
  match parse_date start1, parse_date end1, parse_date start2, parse_date end2 with
  | some d1s, some d1e, some d2s, some d2e =>
    decide (toOrdinal d1s ≤ toOrdinal d2e) && decide (toOrdinal d2s ≤ toOrdinal d1e)
  | _, _, _, _ => false

/-- Model of `utils.calculate_mission_duration`:
`(end - start).days + 1`, or `0` when either date fails to parse. -/
def calculate_mission_duration (start_date end_date : String) : Int :=
  match parse_date start_date, parse_date end_date with
  | some s, some e => (toOrdinal e : Int) - (toOrdinal s : Int) + 1
  | _, _ => 0

/-- Model of `utils.calculate_pilot_cost`. -/
def calculate_pilot_cost (daily_rate : Int) (start_date end_date : String) : Int :=
  daily_rate * calculate_mission_duration start_date end_date

/-- Model of `utils.parse_skills` (a `NaN` or empty cell yields `[]`). -/
def parse_skills : Option String → List String
  | none => []
  | some s => if s = "" then [] else (splitComma s.toList).map (fun l => String.mk (stripChars l))

/-- Model of `utils.parse_certifications`. -/
def parse_certifications : Option String → List String
  | none => []
  | some s => if s = "" then [] else (splitComma s.toList).map (fun l => String.mk (stripChars l))

/-- Model of `utils.skills_match`. -/
def skills_match (pilot_skills required_skills : Option String) : Bool :=
  (parse_skills required_skills).all (fun r => (parse_skills pilot_skills).contains r)

/-- Model of `utils.certifications_match`. -/
def certifications_match (pilot_certs required_certs : Option String) : Bool :=
  (parse_certifications required_certs).all (fun r => (parse_certifications pilot_certs).contains r)

/-- Model of `utils.is_weather_compatible`.  The first argument is the drone
weather-resistance cell (`none` models `NaN`); the second is the mission
forecast string. -/
def is_weather_compatible (drone_weather_resistance : Option String) (mission_weather : String) : Bool :=
  match drone_weather_resistance with
  | none => strLower mission_weather = "sunny" || strLower mission_weather = "cloudy"
  | some s =>
    if s = "" then strLower mission_weather = "sunny" || strLower mission_weather = "cloudy"
    else
      let weather_resistance := strLower s
      if strContains weather_resistance "ip43"
          || strContains weather_resistance "rain" then true
      else if strContains weather_resistance "none"
          || strContains weather_resistance "clear sky only" then
        strLower mission_weather = "sunny" || strLower mission_weather = "cloudy"
      else true

/-- Model of `utils.is_maintenance_due`.  `now` is the ordinal of the current
day (`datetime.now()` is some instant during day `now`, so a maintenance date
`d` satisfies `d <= datetime.now()` exactly when `toOrdinal d ≤ now`). -/
def is_maintenance_due (now : Int) (maintenance_due : Option String) : Bool :=
  match maintenance_due with
  | none => false
  | some s =>
    if s = "" then false
    else
      match parse_date s with
      | none => false
      | some d => decide ((toOrdinal d : Int) ≤ now)

/-- A pilot-roster row (`pilot_roster` sheet/CSV).  `none` models a `NaN`
cell; the id and status columns are always-present strings. -/
structure Pilot where
  pilot_id : String
  skills : Option String
  certifications : Option String
  location : Option String
  daily_rate_inr : Int
  status : String
  current_assignment : Option String
deriving DecidableEq

/-- A drone-fleet row (`drone_fleet` sheet/CSV). -/
structure Drone where
  drone_id : String
  capabilities : Option String
  status : String
  location : Option String
  current_assignment : Option String
  weather_resistance : Option String
  maintenance_due : Option String
deriving DecidableEq

/-- A missions row (`missions` sheet/CSV); the fields the engine reads are
assumed present and non-`NaN`. -/
structure Mission where
  project_id : String
  required_skills : String
  required_certs : String
  location : String
  start_date : String
  end_date : String
  mission_budget_inr : Int
  weather_forecast : String
deriving DecidableEq

/-- The backing record store (the three sheets/CSV files). -/
structure Store where
  pilots : List Pilot
  drones : List Drone
  missions : List Mission
deriving DecidableEq

/-- The `get_current_assignments` row predicate of `roster_manager.py`:
`current_assignment` is not `NaN` and not the placeholder `"-"`. -/
def pilotHasAssignment (p : Pilot) : Bool :=
  p.current_assignment.isSome && p.current_assignment ≠ some "-"

/-- The `get_deployed_drones` row predicate of `inventory_manager.py`. -/
def droneHasAssignment (d : Drone) : Bool :=
  d.current_assignment.isSome && d.current_assignment ≠ some "-"

/-- Update the first list entry satisfying `hit` (the pandas
`df.loc[idx[0]]` single-row update used by `sheets_sync.py`). -/
def updateFirst (hit : α → Bool) (f : α → α) : List α → List α
  | [] => []
  | x :: xs => if hit x then f x :: xs else x :: updateFirst hit f xs

/-- Model of `GoogleSheetsSync.update_pilot_status` (CSV fallback path, same
logic as the remote path): set `status` on the first matching row, and set
`current_assignment` only when `assignment` is truthy (`if assignment:`), so
a `None` assignment leaves the field untouched; an unknown id is a no-op. -/
def sheets_update_pilot_status (pilots : List Pilot) (pilot_id status : String)
    (assignment : Option String) : List Pilot :=
  updateFirst (fun p => p.pilot_id = pilot_id)
    (fun p =>
      let p1 := { p with status := status }
      if optStrTruthy assignment then { p1 with current_assignment := assignment } else p1)
    pilots

/-- Model of `GoogleSheetsSync.update_drone_status`. -/
def sheets_update_drone_status (drones : List Drone) (drone_id status : String)
    (assignment : Option String) : List Drone :=
  updateFirst (fun d => d.drone_id = drone_id)
    (fun d =>
      let d1 := { d with status := status }
      if optStrTruthy assignment then { d1 with current_assignment := assignment } else d1)
    drones

/-- Model of `RosterManager.get_pilot_by_id` (first row with the id). -/
def get_pilot_by_id (pilots : List Pilot) (pilot_id : String) : Option Pilot :=
  pilots.find? (fun p => p.pilot_id = pilot_id)

/-- Model of `RosterManager.get_current_assignments`. -/
def get_current_assignments (pilots : List Pilot) : List Pilot :=
  pilots.filter pilotHasAssignment

/-- Model of `RosterManager.calculate_cost`. -/
def rm_calculate_cost (pilots : List Pilot) (pilot_id start_date end_date : String) : Int :=
  match get_pilot_by_id pilots pilot_id with
  | none => 0
  | some p => calculate_pilot_cost p.daily_rate_inr start_date end_date

/-- The literal status list of `RosterManager.update_pilot_status`. -/
def pilot_valid_statuses : List String :=
  ["Available", "Assigned", "On Leave", "Unavailable"]

/-- Model of `RosterManager.update_pilot_status`: reject a status outside the
enum, otherwise commit through the sheets layer and report success. -/
def rm_update_pilot_status (s : Store) (pilot_id status : String)
    (assignment : Option String) : Bool × Store :=
  if status ∈ pilot_valid_statuses then
    (true, { s with pilots := sheets_update_pilot_status s.pilots pilot_id status assignment })
  else
    (false, s)

/-- Model of `RosterManager.is_pilot_available`: the date arguments are
accepted but not consulted (no interval-overlap check is performed). -/
def is_pilot_available (pilots : List Pilot) (pilot_id start_date end_date : String) : Bool :=
  match get_pilot_by_id pilots pilot_id with
  | none => false
  | some p =>
    if p.status ≠ "Available" then false
    else
      let assignments := get_current_assignments pilots
      let pilot_assignments := assignments.filter (fun q => q.pilot_id = pilot_id)
      if pilot_assignments.length > 0 then false else true

/-- Model of `RosterManager.find_matching_pilots`: successive dataframe
filters for skills, certifications, location (case-insensitive contains),
exact status, and — only when `max_budget` is truthy (not `None` and not
`0`) — cost within budget. -/
def find_matching_pilots (pilots : List Pilot) (required_skills required_certs : Option String)
    (location start_date end_date : String) (max_budget : Option Int) : List Pilot :=
  let df := pilots.filter (fun p => skills_match p.skills required_skills)
  let df := df.filter (fun p => certifications_match p.certifications required_certs)
  let df := df.filter (fun p => seriesContains p.location location)
  let df := df.filter (fun p => p.status = "Available")
  match max_budget with
  | none => df
  | some b =>
    if b = 0 then df
    else df.filter (fun p => calculate_pilot_cost p.daily_rate_inr start_date end_date ≤ b)

/-- Model of `InventoryManager.get_drone_by_id`. -/
def get_drone_by_id (drones : List Drone) (drone_id : String) : Option Drone :=
  drones.find? (fun d => d.drone_id = drone_id)

/-- Model of `InventoryManager.get_deployed_drones`. -/
def get_deployed_drones (drones : List Drone) : List Drone :=
  drones.filter droneHasAssignment

/-- Model of `InventoryManager.get_maintenance_due_drones`. -/
def get_maintenance_due_drones (now : Int) (drones : List Drone) : List Drone :=
  drones.filter (fun d => is_maintenance_due now d.maintenance_due)

/-- Model of `InventoryManager.query_drones`: each filter applies only when
its argument is truthy; the capability filter is any-of case-sensitive
substring over `str(x)`, the status and location filters are case-insensitive
contains, and the weather filter applies `is_weather_compatible`. -/
def query_drones (drones : List Drone) (capabilities : Option (List String))
    (status location weather_forecast : Option String) : List Drone :=
  let df := drones
  let df := match capabilities with
    | some caps =>
      if caps = [] then df
      else df.filter (fun d => caps.any (fun c => strContains (pyStr d.capabilities) c))
    | none => df
  let df := match status with
    | some st => if st = "" then df else df.filter (fun d => strContainsCI d.status st)
    | none => df
  let df := match location with
    | some loc => if loc = "" then df else df.filter (fun d => seriesContains d.location loc)
    | none => df
  let df := match weather_forecast with
    | some wf => if wf = "" then df else df.filter (fun d => is_weather_compatible d.weather_resistance wf)
    | none => df
  df

/-- Model of `InventoryManager.find_matching_drones`. -/
def find_matching_drones (drones : List Drone)
    (required_capabilities location weather_forecast : String) : List Drone :=
  let capabilities_list := (splitComma required_capabilities.toList).map
    (fun l => String.mk (stripChars l))
  let df := query_drones drones (some capabilities_list) (some "Available")
    (some location) (some weather_forecast)
  df.filter (fun d => !(strContainsCI d.status "Maintenance"))

/-- Model of `InventoryManager.is_drone_available` (exact status equality). -/
def is_drone_available (drones : List Drone) (drone_id : String) : Bool :=
  match get_drone_by_id drones drone_id with
  | none => false
  | some d => d.status = "Available"

/-- The literal status list of `InventoryManager.update_drone_status`. -/
def drone_valid_statuses : List String :=
  ["Available", "Assigned", "Maintenance", "Unavailable"]

/-- Model of `InventoryManager.update_drone_status`. -/
def im_update_drone_status (s : Store) (drone_id status : String)
    (assignment : Option String) : Bool × Store :=
  if status ∈ drone_valid_statuses then
    (true, { s with drones := sheets_update_drone_status s.drones drone_id status assignment })
  else
    (false, s)

/-- Result dictionary of `AssignmentTracker.create_assignment` /
`handle_urgent_reassignment`. -/
structure CAResult where
  success : Bool
  error : Option String
  pilot_id : Option String
  drone_id : Option String
  project_id : Option String
deriving DecidableEq

/-- A failure dictionary `{'success': False, 'error': msg}`. -/
def caFail (msg : String) : CAResult :=
  { success := false, error := some msg, pilot_id := none, drone_id := none, project_id := none }

/-- Model of `AssignmentTracker.get_mission_by_id`. -/
def get_mission_by_id (missions : List Mission) (project_id : String) : Option Mission :=
  missions.find? (fun m => m.project_id = project_id)

/-- Model of `AssignmentTracker.match_pilot_to_mission`: first pilot from
`find_matching_pilots` on the mission's requirements. -/
def match_pilot_to_mission (s : Store) (project_id : String) : Option String :=
  match get_mission_by_id s.missions project_id with
  | none => none
  | some m =>
    match find_matching_pilots s.pilots (some m.required_skills) (some m.required_certs)
        m.location m.start_date m.end_date (some m.mission_budget_inr) with
    | [] => none
    | p :: _ => some p.pilot_id

/-- The fixed skill-to-capability lookup of
`AssignmentTracker.match_drone_to_mission`. -/
def skill_to_capability (skill : String) : Option String :=
  if skill = "Thermal" then some "Thermal"
  else if skill = "Mapping" then some "RGB"
  else if skill = "Survey" then some "RGB"
  else if skill = "Inspection" then some "RGB"
  else if skill = "LiDAR" then some "LiDAR"
  else none

/-- Model of `AssignmentTracker.match_drone_to_mission`: map required skills
to capabilities (default `["RGB"]`), then take the first matching drone. -/
def match_drone_to_mission (s : Store) (project_id : String) : Option String :=
  match get_mission_by_id s.missions project_id with
  | none => none
  | some m =>
    let required_capabilities := (splitComma m.required_skills.toList).filterMap
      (fun l => skill_to_capability (String.mk (stripChars l)))
    let required_capabilities := if required_capabilities = [] then ["RGB"]
      else required_capabilities
    match find_matching_drones s.drones (String.intercalate "," required_capabilities)
        m.location m.weather_forecast with
    | [] => none
    | d :: _ => some d.drone_id

/-- Model of `AssignmentTracker.assign_pilot_to_mission`: check the mission
exists and the pilot is available, then commit status `Assigned` with the
mission id. -/
def assign_pilot_to_mission (s : Store) (pilot_id project_id : String) : Bool × Store :=
  match get_mission_by_id s.missions project_id with
  | none => (false, s)
  | some m =>
    if !(is_pilot_available s.pilots pilot_id m.start_date m.end_date) then (false, s)
    else rm_update_pilot_status s pilot_id "Assigned" (some project_id)

/-- Model of `AssignmentTracker.assign_drone_to_mission`. -/
def assign_drone_to_mission (s : Store) (drone_id project_id : String) : Bool × Store :=
  match get_mission_by_id s.missions project_id with
  | none => (false, s)
  | some _ =>
    if !(is_drone_available s.drones drone_id) then (false, s)
    else im_update_drone_status s drone_id "Assigned" (some project_id)

/-- Model of `AssignmentTracker.create_assignment`: auto-match absent pilot
or drone ids, commit the pilot, then the drone; on drone failure roll the
pilot back with `update_pilot_status(pilot_id, 'Available', None)`. -/
def create_assignment (s : Store) (project_id : String)
    (pilot_idArg drone_idArg : Option String) : CAResult × Store :=
  match get_mission_by_id s.missions project_id with
  | none => (caFail "Mission not found", s)
  | some _ =>
    let pid? := if optStrTruthy pilot_idArg then pilot_idArg
      else match_pilot_to_mission s project_id
    match pid? with
    | none => (caFail "No suitable pilot found", s)
    | some pilot_id =>
      if pilot_id = "" then (caFail "No suitable pilot found", s)
      else
        let did? := if optStrTruthy drone_idArg then drone_idArg
          else match_drone_to_mission s project_id
        match did? with
        | none => (caFail "No suitable drone found", s)
        | some drone_id =>
          if drone_id = "" then (caFail "No suitable drone found", s)
          else
            let pr := assign_pilot_to_mission s pilot_id project_id
            if !pr.1 then (caFail "Failed to assign pilot", pr.2)
            else
              let dr := assign_drone_to_mission pr.2 drone_id project_id
              if !dr.1 then
                let rb := rm_update_pilot_status dr.2 pilot_id "Available" none
                (caFail "Failed to assign drone", rb.2)
              else
                ({ success := true, error := none, pilot_id := some pilot_id,
                   drone_id := some drone_id, project_id := some project_id }, dr.2)

/-- Model of `AssignmentTracker.handle_urgent_reassignment`: unconditionally
free the first pilot and first drone currently holding the mission
(`update_*_status(id, 'Available', None)`), then create a fresh assignment. -/
def handle_urgent_reassignment (s : Store) (project_id : String) : CAResult × Store :=
  match get_mission_by_id s.missions project_id with
  | none => (caFail "Mission not found", s)
  | some _ =>
    let current_pilots := get_current_assignments s.pilots
    let current_drones := get_deployed_drones s.drones
    let assigned_pilot := current_pilots.filter (fun p => p.current_assignment = some project_id)
    let assigned_drone := current_drones.filter (fun d => d.current_assignment = some project_id)
    let s1 := match assigned_pilot with
      | [] => s
      | p :: _ => (rm_update_pilot_status s p.pilot_id "Available" none).2
    let s2 := match assigned_drone with
      | [] => s1
      | d :: _ => (im_update_drone_status s1 d.drone_id "Available" none).2
    create_assignment s2 project_id none none

/-- A conflict dictionary produced by `conflict_detector.py`; one constructor
per `type` value, carrying that type's evidence fields in source order.
`Option String` fields hold raw (possibly `NaN`) cell values. -/
inductive Conflict
  | doubleBooking (entity_type entity_id : String)
      (assignment1 assignment2 : Option String) (severity : String)
  | skillMismatch (pilot_id project_id required_skills : String)
      (pilot_skills : Option String) (severity : String)
  | certificationMismatch (pilot_id project_id required_certs : String)
      (pilot_certs : Option String) (severity : String)
  | locationMismatch (entity_type entity_id project_id : String)
      (entity_location : Option String) (mission_location severity : String)
  | budgetOverrun (pilot_id project_id : String)
      (mission_budget pilot_cost overrun : Int) (severity : String)
  | weatherRisk (drone_id project_id : String)
      (drone_weather_resistance : Option String) (mission_weather severity : String)
  | maintenanceDue (drone_id : String)
      (maintenance_due_date current_assignment : Option String) (severity : String)
deriving DecidableEq

/-- Concatenation of per-row results, modelling `conflicts.append(...)`
inside a dataframe `for` loop. -/
def concatMap (f : α → List β) : List α → List β
  | [] => []
  | x :: xs => f x ++ concatMap f xs

/-- First-occurrence deduplication, modelling pandas `Series.unique()`. -/
def uniqueFirstAux : List String → List String → List String
  | [], _ => []
  | x :: xs, seen => if seen.contains x then uniqueFirstAux xs seen
    else x :: uniqueFirstAux xs (x :: seen)

/-- First-occurrence deduplication, modelling pandas `Series.unique()`. -/
def uniqueFirst (l : List String) : List String :=
  uniqueFirstAux l []

/-- The ordered pairs `(list[i], list[j])` with `i < j`, as enumerated by the
nested loops of `detect_double_bookings`. -/
def orderedPairs : List α → List (α × α)
  | [] => []
  | x :: xs => xs.map (fun y => (x, y)) ++ orderedPairs xs

/-- One pair check of `detect_double_bookings`: look both assignment values
up among the missions and report when their date ranges overlap. -/
def dbPairConflict (missions : List Mission) (entity_type entity_id : String)
    (pr : Option String × Option String) : List Conflict :=
  let m1 : Option Mission := match pr.1 with
    | some a => missions.find? (fun m => m.project_id = a)
    | none => none
  let m2 : Option Mission := match pr.2 with
    | some a => missions.find? (fun m => m.project_id = a)
    | none => none
  match m1, m2 with
  | some x, some y =>
    if dates_overlap x.start_date x.end_date y.start_date y.end_date then
      [Conflict.doubleBooking entity_type entity_id pr.1 pr.2 "high"]
    else []
  | _, _ => []

/-- Model of `ConflictDetector.detect_double_bookings`. -/
def detect_double_bookings (s : Store) : List Conflict :=
  let missions := s.missions
  let pilot_assignments := get_current_assignments s.pilots
  let drone_assignments := get_deployed_drones s.drones
  let pilotConflicts :=
    if pilot_assignments = [] then []
    else concatMap (fun pilot_id =>
      let pilot_assigns := pilot_assignments.filter (fun p => p.pilot_id = pilot_id)
      if pilot_assigns.length > 1 then
        concatMap (dbPairConflict missions "pilot" pilot_id)
          (orderedPairs (pilot_assigns.map (fun p => p.current_assignment)))
      else []) (uniqueFirst (pilot_assignments.map (fun p => p.pilot_id)))
  let droneConflicts :=
    if drone_assignments = [] then []
    else concatMap (fun drone_id =>
      let drone_assigns := drone_assignments.filter (fun d => d.drone_id = drone_id)
      if drone_assigns.length > 1 then
        concatMap (dbPairConflict missions "drone" drone_id)
          (orderedPairs (drone_assigns.map (fun d => d.current_assignment)))
      else []) (uniqueFirst (drone_assignments.map (fun d => d.drone_id)))
  pilotConflicts ++ droneConflicts

/-- Per-assigned-pilot body of `ConflictDetector.detect_skill_mismatches`. -/
def skillMismatchBody (s : Store) (row : Pilot) : List Conflict :=
  match row.current_assignment with
  | none => []
  | some project_id =>
    if project_id = "-" then []
    else
      match get_mission_by_id s.missions project_id with
      | none => []
      | some mission =>
        match get_pilot_by_id s.pilots row.pilot_id with
        | none => []
        | some pilot =>
          (if !(skills_match pilot.skills (some mission.required_skills)) then
            [Conflict.skillMismatch row.pilot_id project_id mission.required_skills
              pilot.skills "high"]
          else [])
          ++ (if !(certifications_match pilot.certifications (some mission.required_certs)) then
            [Conflict.certificationMismatch row.pilot_id project_id mission.required_certs
              pilot.certifications "high"]
          else [])

/-- Model of `ConflictDetector.detect_skill_mismatches`. -/
def detect_skill_mismatches (s : Store) : List Conflict :=
  let pilot_assignments := get_current_assignments s.pilots
  if pilot_assignments = [] then []
  else concatMap (skillMismatchBody s) pilot_assignments

/-- Per-assigned-pilot body of `ConflictDetector.detect_location_mismatches`:
the pilot's own location check, followed by the check of the first drone
deployed on the same mission — the drone check only runs inside this
per-pilot loop. -/
def locationMismatchBody (s : Store) (row : Pilot) : List Conflict :=
  match row.current_assignment with
  | none => []
  | some project_id =>
    if project_id = "-" then []
    else
      match get_mission_by_id s.missions project_id with
      | none => []
      | some mission =>
        match get_pilot_by_id s.pilots row.pilot_id with
        | none => []
        | some pilot =>
          let pilot_loc := strLower (pyStr pilot.location)
          let mission_loc := strLower mission.location
          let pilotPart :=
            if pilot_loc ≠ "" ∧ mission_loc ≠ "" ∧ pilot_loc ≠ mission_loc then
              [Conflict.locationMismatch "pilot" row.pilot_id project_id
                pilot.location mission.location "medium"]
            else []
          let dronePart :=
            let drone_assignments := get_deployed_drones s.drones
            if drone_assignments = [] then []
            else
              match drone_assignments.filter
                  (fun d => d.current_assignment = some project_id) with
              | [] => []
              | drone :: _ =>
                let drone_loc := strLower (pyStr drone.location)
                if drone_loc ≠ "" ∧ mission_loc ≠ "" ∧ drone_loc ≠ mission_loc then
                  [Conflict.locationMismatch "drone" drone.drone_id project_id
                    drone.location mission.location "medium"]
                else []
          pilotPart ++ dronePart

/-- Model of `ConflictDetector.detect_location_mismatches`. -/
def detect_location_mismatches (s : Store) : List Conflict :=
  let pilot_assignments := get_current_assignments s.pilots
  if pilot_assignments = [] then []
  else concatMap (locationMismatchBody s) pilot_assignments

/-- Per-assigned-pilot body of `ConflictDetector.detect_budget_overruns`. -/
def budgetOverrunBody (s : Store) (row : Pilot) : List Conflict :=
  match row.current_assignment with
  | none => []
  | some project_id =>
    if project_id = "-" then []
    else
      match get_mission_by_id s.missions project_id with
      | none => []
      | some mission =>
        match get_pilot_by_id s.pilots row.pilot_id with
        | none => []
        | some _ =>
          let mission_budget := mission.mission_budget_inr
          let pilot_cost := rm_calculate_cost s.pilots row.pilot_id
            mission.start_date mission.end_date
          if mission_budget > 0 ∧ pilot_cost > mission_budget then
            [Conflict.budgetOverrun row.pilot_id project_id mission_budget pilot_cost
              (pilot_cost - mission_budget) "medium"]
          else []

/-- Model of `ConflictDetector.detect_budget_overruns`. -/
def detect_budget_overruns (s : Store) : List Conflict :=
  let pilot_assignments := get_current_assignments s.pilots
  if pilot_assignments = [] then []
  else concatMap (budgetOverrunBody s) pilot_assignments

/-- Per-deployed-drone body of `ConflictDetector.detect_weather_risks`. -/
def weatherRiskBody (s : Store) (row : Drone) : List Conflict :=
  match row.current_assignment with
  | none => []
  | some project_id =>
    if project_id = "-" then []
    else
      match get_mission_by_id s.missions project_id with
      | none => []
      | some mission =>
        match get_drone_by_id s.drones row.drone_id with
        | none => []
        | some drone =>
          if !(is_weather_compatible drone.weather_resistance mission.weather_forecast) then
            [Conflict.weatherRisk row.drone_id project_id drone.weather_resistance
              mission.weather_forecast "high"]
          else []

/-- Model of `ConflictDetector.detect_weather_risks`. -/
def detect_weather_risks (s : Store) : List Conflict :=
  let drone_assignments := get_deployed_drones s.drones
  if drone_assignments = [] then []
  else concatMap (weatherRiskBody s) drone_assignments

/-- Model of `ConflictDetector.detect_maintenance_issues`. -/
def detect_maintenance_issues (now : Int) (s : Store) : List Conflict :=
  let maintenance_due := get_maintenance_due_drones now s.drones
  let drone_assignments := get_deployed_drones s.drones
  if maintenance_due = [] then []
  else concatMap (fun drone =>
    if drone_assignments ≠ [] then
      match drone_assignments.filter (fun x => x.drone_id = drone.drone_id) with
      | [] => []
      | assigned :: _ =>
        [Conflict.maintenanceDue drone.drone_id drone.maintenance_due
          assigned.current_assignment "high"]
    else []) maintenance_due

/-- The dictionary returned by `ConflictDetector.detect_all_conflicts`. -/
structure ConflictReport where
  double_bookings : List Conflict
  skill_mismatches : List Conflict
  location_mismatches : List Conflict
  budget_overruns : List Conflict
  weather_risks : List Conflict
  maintenance_issues : List Conflict
deriving DecidableEq

/-- Model of `ConflictDetector.detect_all_conflicts`.  `now` is the current
day (used only by the maintenance scan). -/
def detect_all_conflicts (now : Int) (s : Store) : ConflictReport :=
  { double_bookings := detect_double_bookings s
    skill_mismatches := detect_skill_mismatches s
    location_mismatches := detect_location_mismatches s
    budget_overruns := detect_budget_overruns s
    weather_risks := detect_weather_risks s
    maintenance_issues := detect_maintenance_issues now s }

/-- One run of the conflict scan against the store, returning the report
together with the store the next operation will see.  Every call made by
`detect_all_conflicts` is a read (`get_active_missions`,
`get_current_assignments`, `get_deployed_drones`, `get_pilot_by_id`,
`get_drone_by_id`, `get_maintenance_due_drones`, `calculate_cost`); no
status-update path is reachable from it, so the store is returned as
fetched. -/
def detect_all_conflicts_run (now : Int) (s : Store) : ConflictReport × Store :=
  (detect_all_conflicts now s, s)

/-- Membership in a loop-concatenated conflict list. -/
theorem mem_concatMap {f : α → List β} {b : β} {l : List α} :
    b ∈ concatMap f l ↔ ∃ a ∈ l, b ∈ f a := by
  induction l with
  | nil => simp [concatMap]
  | cons x xs ih => simp [concatMap, List.mem_append, ih]

/-- A first-match update is the identity when nothing matches. -/
theorem updateFirst_of_not_hit {hit : α → Bool} {f : α → α} :
    ∀ {l : List α}, (∀ x ∈ l, hit x = false) → updateFirst hit f l = l
  | [], _ => rfl
  | x :: xs, h => by
    have hx := h x (List.mem_cons_self x xs)
    simp [updateFirst, hx, updateFirst_of_not_hit (fun y hy => h y (List.mem_cons_of_mem x hy))]

/-- Spec-side classifier: the rating cell is missing (`NaN`) or empty. -/
def ratingMissing : Option String → Bool
  | none => true
  | some s => decide (s = "")

/-- Spec-side classifier: the rating contains a rain-capable marker
(`"ip43"` or `"rain"`, case-insensitive). -/
def hasRainMarker : Option String → Bool
  | none => false
  | some s => strContains (strLower s) "ip43" || strContains (strLower s) "rain"

/-- Spec-side classifier: the rating contains a clear-sky-only marker
(`"none"` or `"clear sky only"`, case-insensitive). -/
def hasNoneMarker : Option String → Bool
  | none => false
  | some s => strContains (strLower s) "none" || strContains (strLower s) "clear sky only"

/-- Spec-side predicate: the forecast is (case-insensitively) Sunny or
Cloudy. -/
def clearSkyForecast (mw : String) : Bool :=
  decide (strLower mw = "sunny") || decide (strLower mw = "cloudy")

/-- Spec-side invariant (spec §3): status `Assigned` implies the
current-assignment field holds a mission id; status `Available` implies it is
cleared. -/
def pilotStatusInvariant (p : Pilot) : Prop :=
  (p.status = "Assigned" → pilotHasAssignment p = true) ∧
  (p.status = "Available" → pilotHasAssignment p = false)

/-- Spec-side invariant for drones, mirror of `pilotStatusInvariant`. -/
def droneStatusInvariant (d : Drone) : Prop :=
  (d.status = "Assigned" → droneHasAssignment d = true) ∧
  (d.status = "Available" → droneHasAssignment d = false)

instance : DecidablePred pilotStatusInvariant := fun p => by
  unfold pilotStatusInvariant
  infer_instance

instance : DecidablePred droneStatusInvariant := fun d => by
  unfold droneStatusInvariant
  infer_instance

/-- Pilot fixture for the `create_assignment` rollback scenario: available,
matching mission M1. -/
def C1pilot : Pilot :=
  { pilot_id := "P1", skills := some "Thermal", certifications := some "DGCA",
    location := some "Bangalore", daily_rate_inr := 10000, status := "Available",
    current_assignment := none }

/-- Mission fixture M1. -/
def C1mission : Mission :=
  { project_id := "M1", required_skills := "Thermal", required_certs := "DGCA",
    location := "Bangalore", start_date := "2024-03-01", end_date := "2024-03-03",
    mission_budget_inr := 50000, weather_forecast := "Sunny" }

/-- Store fixture: one available pilot, no drones, mission M1. -/
def C1store : Store :=
  { pilots := [C1pilot], drones := [], missions := [C1mission] }

/-- Claim C1: when the drone commit fails after the pilot commit succeeded,
`create_assignment` is claimed to restore the pilot to Available, clear its
current assignment, and return a drone-assignment failure.  At this concrete
input (`drone_id = "DX"` does not exist, so the drone commit fails after the
pilot commit) the code returns the drone failure and restores the status, but
the rollback `update_pilot_status(pilot_id, 'Available', None)` does not
clear `current_assignment` (the sheets layer skips the assignment field when
`assignment` is `None`): the pilot ends Available while still holding
`"M1"`. -/
theorem C1_rollback_keeps_assignment :
    (create_assignment C1store "M1" (some "P1") (some "DX")).1.success = false ∧
    (create_assignment C1store "M1" (some "P1") (some "DX")).1.error =
      some "Failed to assign drone" ∧
    (create_assignment C1store "M1" (some "P1") (some "DX")).2.pilots =
      [{ C1pilot with status := "Available", current_assignment := some "M1" }] := by
  decide

/-- Claim C2, counterexample: the rating `"IP20"` matches no rain marker and
no none/clear-sky marker (so the claim classifies it as clear-sky-only and
requires incompatibility with `"Rainy"`), yet `is_weather_compatible` falls
through to its final `return True` and reports it compatible with rain. -/
theorem C2_counterexample :
    ratingMissing (some "IP20") = false ∧ hasRainMarker (some "IP20") = false ∧
    hasNoneMarker (some "IP20") = false ∧ clearSkyForecast "Rainy" = false ∧
    is_weather_compatible (some "IP20") "Rainy" = true := by decide

/-- Claim C2 (amended): a missing/empty rating is compatible exactly with
clear-sky forecasts; a rating with a rain marker is compatible with any
forecast; a rain-marker-free rating with a none/clear-sky marker is
compatible exactly with clear-sky forecasts; any other (unclassifiable)
non-empty rating is compatible with any forecast — not clear-sky-only as the
original claim states. -/
theorem C2_weather_tiers (wr : Option String) (mw : String) :
    (ratingMissing wr = true →
      (is_weather_compatible wr mw = true ↔ clearSkyForecast mw = true)) ∧
    (ratingMissing wr = false → hasRainMarker wr = true →
      is_weather_compatible wr mw = true) ∧
    (ratingMissing wr = false → hasRainMarker wr = false → hasNoneMarker wr = true →
      (is_weather_compatible wr mw = true ↔ clearSkyForecast mw = true)) ∧
    (ratingMissing wr = false → hasRainMarker wr = false → hasNoneMarker wr = false →
      is_weather_compatible wr mw = true) := by
  rcases wr with _ | s
  · simp [is_weather_compatible, ratingMissing, hasRainMarker, hasNoneMarker, clearSkyForecast]
  · by_cases hs : s = ""
    · simp [is_weather_compatible, ratingMissing, hasRainMarker, hasNoneMarker,
        clearSkyForecast, hs]
    · cases h1 : strContains (strLower s) "ip43" <;>
        cases h2 : strContains (strLower s) "rain" <;>
        cases h3 : strContains (strLower s) "none" <;>
        cases h4 : strContains (strLower s) "clear sky only" <;>
        simp [is_weather_compatible, ratingMissing, hasRainMarker, hasNoneMarker,
          clearSkyForecast, hs, h1, h2, h3, h4]

/-- Witness for `C2_weather_tiers`: the spec's own examples, a rain-rated
drone is compatible with rain and a `"None"` rating is not. -/
theorem C2_weather_tiers_witness :
    is_weather_compatible (some "IP43 Rain-rated") "Rainy" = true ∧
    is_weather_compatible (some "None") "Rainy" = false := by
  refine ⟨(C2_weather_tiers (some "IP43 Rain-rated") "Rainy").2.1 (by decide) (by decide), ?_⟩
  have h := (C2_weather_tiers (some "None") "Rainy").2.2.1 (by decide) (by decide) (by decide)
  cases hc : is_weather_compatible (some "None") "Rainy"
  · rfl
  · exact absurd (h.mp hc) (by decide)

/-- Pilot fixture for the urgent-reassignment scenario: assigned to M1, with
skills that do not match M1's requirements (so the re-assignment fails). -/
def C3pilot : Pilot :=
  { pilot_id := "P1", skills := some "Mapping", certifications := some "DGCA",
    location := some "Bangalore", daily_rate_inr := 10000, status := "Assigned",
    current_assignment := some "M1" }

/-- Mission fixture for the urgent-reassignment scenario. -/
def C3mission : Mission :=
  { project_id := "M1", required_skills := "Thermal", required_certs := "DGCA",
    location := "Bangalore", start_date := "2024-03-01", end_date := "2024-03-03",
    mission_budget_inr := 50000, weather_forecast := "Sunny" }

/-- Store fixture whose records all satisfy the status/assignment
invariant. -/
def C3store : Store :=
  { pilots := [C3pilot], drones := [], missions := [C3mission] }

/-- Claim C3: every engine operation is claimed to preserve the invariant
that status Available implies a cleared current-assignment field.  Starting
from a store satisfying the invariant, the force-free step of
`handle_urgent_reassignment` (`update_pilot_status(old_pilot_id, 'Available',
None)`) leaves the freed pilot with status Available and
`current_assignment = "M1"` still set, violating the invariant; the
`create_assignment` rollback (claim C1) breaks it the same way. -/
theorem C3_urgent_reassignment_breaks_invariant :
    (∀ p ∈ C3store.pilots, pilotStatusInvariant p) ∧
    (∀ d ∈ C3store.drones, droneStatusInvariant d) ∧
    (∃ p ∈ (handle_urgent_reassignment C3store "M1").2.pilots,
      p.status = "Available" ∧ p.current_assignment = some "M1" ∧
      ¬ pilotStatusInvariant p) := by decide

/-- Drone fixture: deployed on M1 from a mismatching location. -/
def C4drone : Drone :=
  { drone_id := "D1", capabilities := some "Thermal", status := "Assigned",
    location := some "Mumbai", current_assignment := some "M1",
    weather_resistance := some "IP43", maintenance_due := none }

/-- Mission fixture located in Bangalore. -/
def C4mission : Mission :=
  { project_id := "M1", required_skills := "Thermal", required_certs := "DGCA",
    location := "Bangalore", start_date := "2024-03-01", end_date := "2024-03-03",
    mission_budget_inr := 50000, weather_forecast := "Sunny" }

/-- Store fixture with a mismatching deployed drone and no assigned pilot. -/
def C4store : Store :=
  { pilots := [], drones := [C4drone], missions := [C4mission] }

/-- Claim C4, counterexample: drone D1 holds assignment M1 and its location
(`"Mumbai"`) differs case-insensitively from the mission's (`"Bangalore"`),
so the claim requires a medium-severity drone conflict even though no pilot
is assigned; the scan returns an empty list because the drone check lives
inside the per-assigned-pilot loop. -/
theorem C4_counterexample :
    droneHasAssignment C4drone = true ∧
    C4drone.current_assignment = some "M1" ∧
    get_mission_by_id C4store.missions "M1" = some C4mission ∧
    strLower (pyStr C4drone.location) ≠ "" ∧
    strLower C4mission.location ≠ "" ∧
    strLower (pyStr C4drone.location) ≠ strLower C4mission.location ∧
    detect_location_mismatches C4store = [] := by decide

/-- Claim C4 (amended): the scan reports a medium-severity pilot conflict
for every assigned pilot whose (case-insensitively lowered, non-empty)
location differs from its existing mission's location; drone mismatches,
however, are not independent — every reported drone conflict belongs to a
mission currently held by some assigned pilot, so a mismatching drone on a
mission with no assigned pilot is never reported. -/
theorem C4_location_scan (s : Store) :
    (∀ p ∈ get_current_assignments s.pilots, ∀ pid m q,
      p.current_assignment = some pid →
      get_mission_by_id s.missions pid = some m →
      get_pilot_by_id s.pilots p.pilot_id = some q →
      strLower (pyStr q.location) ≠ "" →
      strLower m.location ≠ "" →
      strLower (pyStr q.location) ≠ strLower m.location →
      Conflict.locationMismatch "pilot" p.pilot_id pid q.location m.location "medium"
        ∈ detect_location_mismatches s) ∧
    (∀ ety eid pid eloc mloc sev,
      Conflict.locationMismatch ety eid pid eloc mloc sev ∈ detect_location_mismatches s →
      ety = "drone" →
      ∃ p ∈ s.pilots, pilotHasAssignment p = true ∧ p.current_assignment = some pid) := by
  constructor
  · intro p hp pid m q hpid hm hq hql hml hne
    have hpa : get_current_assignments s.pilots ≠ [] := by
      intro h0
      rw [h0] at hp
      exact absurd hp (List.not_mem_nil p)
    have hdash : ¬ pid = "-" := by
      have hfil := (List.mem_filter.mp hp).2
      rw [pilotHasAssignment] at hfil
      intro hd
      rw [hd] at hpid
      simp [hpid] at hfil
    unfold detect_location_mismatches
    rw [if_neg hpa]
    refine mem_concatMap.mpr ⟨p, hp, ?_⟩
    simp only [locationMismatchBody, hpid, hm, hq, hdash, if_false, ite_false]
    rw [if_pos ⟨hql, hml, hne⟩]
    exact List.mem_append_left _ (List.mem_cons_self _ _)
  · intro ety eid pid eloc mloc sev hmem hety
    subst hety
    unfold detect_location_mismatches at hmem
    by_cases hpa : get_current_assignments s.pilots = []
    · rw [if_pos hpa] at hmem
      exact absurd hmem (List.not_mem_nil _)
    · rw [if_neg hpa] at hmem
      obtain ⟨row, hrow, hbody⟩ := mem_concatMap.mp hmem
      have hrowmem := (List.mem_filter.mp hrow).1
      have hrowassign := (List.mem_filter.mp hrow).2
      rcases hca : row.current_assignment with _ | a
      · simp only [locationMismatchBody, hca] at hbody
        exact absurd hbody (List.not_mem_nil _)
      · simp only [locationMismatchBody, hca] at hbody
        by_cases hd : a = "-"
        · simp only [hd, ite_true, if_true] at hbody
          exact absurd hbody (List.not_mem_nil _)
        · simp only [hd, ite_false, if_false] at hbody
          rcases hm : get_mission_by_id s.missions a with _ | mission
          · simp only [hm] at hbody
            exact absurd hbody (List.not_mem_nil _)
          · simp only [hm] at hbody
            rcases hq : get_pilot_by_id s.pilots row.pilot_id with _ | pilot
            · simp only [hq] at hbody
              exact absurd hbody (List.not_mem_nil _)
            · simp only [hq] at hbody
              rcases List.mem_append.mp hbody with hleft | hright
              · exfalso
                by_cases hcond : strLower (pyStr pilot.location) ≠ "" ∧
                    strLower mission.location ≠ "" ∧
                    strLower (pyStr pilot.location) ≠ strLower mission.location
                · rw [if_pos hcond] at hleft
                  have h := List.mem_singleton.mp hleft
                  injection h with e1 e2 e3 e4 e5 e6
                  exact absurd e1 (by decide)
                · rw [if_neg hcond] at hleft
                  exact absurd hleft (List.not_mem_nil _)
              · by_cases hda : get_deployed_drones s.drones = []
                · rw [if_pos hda] at hright
                  exact absurd hright (List.not_mem_nil _)
                · rw [if_neg hda] at hright
                  split at hright
                  · exact absurd hright (List.not_mem_nil _)
                  · split at hright
                    · have heq := List.mem_singleton.mp hright
                      injection heq with e1 e2 e3 e4 e5 e6
                      exact ⟨row, hrowmem, hrowassign, by rw [hca, e3]⟩
                    · exact absurd hright (List.not_mem_nil _)

/-- Pilot fixture assigned to M1 from a mismatching location. -/
def C4pilot : Pilot :=
  { pilot_id := "P1", skills := some "Thermal", certifications := some "DGCA",
    location := some "Mumbai", daily_rate_inr := 10000, status := "Assigned",
    current_assignment := some "M1" }

/-- Store fixture for the pilot-side witness. -/
def C4store2 : Store :=
  { pilots := [C4pilot], drones := [], missions := [C4mission] }

/-- Witness for `C4_location_scan`: an assigned pilot in Mumbai on a
Bangalore mission yields a medium-severity pilot conflict. -/
theorem C4_location_scan_witness :
    Conflict.locationMismatch "pilot" "P1" "M1" (some "Mumbai") "Bangalore" "medium"
      ∈ detect_location_mismatches C4store2 := by
  have h := (C4_location_scan C4store2).1 C4pilot (by decide) "M1" C4mission C4pilot
    (by decide) (by decide) (by decide) (by decide) (by decide) (by decide)
  exact h

/-- Claim C5: `dates_overlap` is true exactly when all four dates parse and
the closed intervals meet (`startA <= endB` and `startB <= endA`); any
malformed argument makes it false; and it is symmetric in its two ranges. -/
theorem C5_dates_overlap_characterization (s1 e1 s2 e2 : String) :
    (dates_overlap s1 e1 s2 e2 = true ↔
      ∃ a b c d, parse_date s1 = some a ∧ parse_date e1 = some b ∧
        parse_date s2 = some c ∧ parse_date e2 = some d ∧
        toOrdinal a ≤ toOrdinal d ∧ toOrdinal c ≤ toOrdinal b) ∧
    ((parse_date s1 = none ∨ parse_date e1 = none ∨ parse_date s2 = none ∨
        parse_date e2 = none) → dates_overlap s1 e1 s2 e2 = false) ∧
    dates_overlap s1 e1 s2 e2 = dates_overlap s2 e2 s1 e1 := by
  rcases h1 : parse_date s1 with _ | a <;> rcases h2 : parse_date e1 with _ | b <;>
    rcases h3 : parse_date s2 with _ | c <;> rcases h4 : parse_date e2 with _ | d <;>
    simp [dates_overlap, h1, h2, h3, h4, Bool.and_comm, and_comm]

/-- Witness for `C5_dates_overlap_characterization`: ranges sharing the
boundary day 2024-01-03 overlap, and a malformed first date yields false. -/
theorem C5_dates_overlap_characterization_witness :
    dates_overlap "2024-01-01" "2024-01-03" "2024-01-03" "2024-01-05" = true ∧
    dates_overlap "not-a-date" "2024-01-03" "2024-01-03" "2024-01-05" = false := by
  have h := C5_dates_overlap_characterization "2024-01-01" "2024-01-03" "2024-01-03" "2024-01-05"
  have h2 := C5_dates_overlap_characterization "not-a-date" "2024-01-03" "2024-01-03" "2024-01-05"
  exact ⟨h.1.mpr ⟨⟨2024, 1, 1⟩, ⟨2024, 1, 3⟩, ⟨2024, 1, 3⟩, ⟨2024, 1, 5⟩, by decide,
    by decide, by decide, by decide, by decide, by decide⟩, h2.2.1 (Or.inl (by decide))⟩

/-- Claim C6: for parseable dates the pilot cost is
`dailyRate * ((end - start).days + 1)`, counting both endpoints; a malformed
date yields duration 0 and hence cost 0. -/
theorem C6_pilot_cost_formula (daily_rate : Int) (start_date end_date : String) :
    (∀ a b, parse_date start_date = some a → parse_date end_date = some b →
      calculate_pilot_cost daily_rate start_date end_date =
        daily_rate * ((toOrdinal b : Int) - (toOrdinal a : Int) + 1)) ∧
    ((parse_date start_date = none ∨ parse_date end_date = none) →
      calculate_pilot_cost daily_rate start_date end_date = 0) := by
  constructor
  · intro a b ha hb
    simp [calculate_pilot_cost, calculate_mission_duration, ha, hb]
  · intro h
    rcases h3 : parse_date start_date with _ | a <;>
      rcases h4 : parse_date end_date with _ | b <;>
      simp_all [calculate_pilot_cost, calculate_mission_duration]

/-- Witness for `C6_pilot_cost_formula`: the spec example, a five-day
mission (2024-01-01 to 2024-01-05 inclusive) costs five daily rates. -/
theorem C6_pilot_cost_formula_witness :
    calculate_pilot_cost 10000 "2024-01-01" "2024-01-05" = 10000 * 5 := by
  have h := (C6_pilot_cost_formula 10000 "2024-01-01" "2024-01-05").1
    ⟨2024, 1, 1⟩ ⟨2024, 1, 5⟩ (by decide) (by decide)
  rw [h]
  decide

/-- Claim C7: `is_pilot_available` is true exactly when the pilot id
resolves, the resolved pilot's status is Available, and no roster row with
that id holds a current assignment — the requested date range is never
consulted. -/
theorem C7_is_pilot_available_characterization (pilots : List Pilot)
    (pilot_id start_date end_date : String) :
    is_pilot_available pilots pilot_id start_date end_date = true ↔
      ∃ p, get_pilot_by_id pilots pilot_id = some p ∧ p.status = "Available" ∧
        ∀ q ∈ pilots, q.pilot_id = pilot_id → pilotHasAssignment q = false := by
  rcases hp : get_pilot_by_id pilots pilot_id with _ | p
  · simp [is_pilot_available, hp]
  · simp [is_pilot_available, hp, get_current_assignments, List.filter_filter,
      Nat.pos_iff_ne_zero, ne_eq, List.length_eq_zero, List.filter_eq_nil_iff]

/-- Pilot fixture: available and holding no assignment. -/
def C7pilot : Pilot :=
  { pilot_id := "P9", skills := none, certifications := none,
    location := some "Delhi", daily_rate_inr := 800, status := "Available",
    current_assignment := none }

/-- Witness for `C7_is_pilot_available_characterization`: an available,
unassigned pilot is reported available. -/
theorem C7_is_pilot_available_witness :
    is_pilot_available [C7pilot] "P9" "2024-05-01" "2024-05-02" = true :=
  (C7_is_pilot_available_characterization [C7pilot] "P9" "2024-05-01"
    "2024-05-02").mpr ⟨C7pilot, by decide, by decide, by decide⟩

/-- Claim C8, counterexample: with `maxBudget = 0` the budget filter is
skipped (`if max_budget:` is falsy for `0`), so a pilot whose five-day cost
is 500 is returned even though the claim requires `cost ≤ 0`. -/
def C8pilot : Pilot :=
  { pilot_id := "P1", skills := some "Thermal", certifications := some "DGCA",
    location := some "Bangalore", daily_rate_inr := 100, status := "Available",
    current_assignment := none }

/-- Claim C8, counterexample: the pilot is returned under `maxBudget = 0`
although its cost (500) exceeds that budget. -/
theorem C8_counterexample :
    find_matching_pilots [C8pilot] (some "Thermal") (some "DGCA") "Bangalore"
      "2024-01-01" "2024-01-05" (some 0) = [C8pilot] ∧
    ¬ (calculate_pilot_cost C8pilot.daily_rate_inr "2024-01-01" "2024-01-05" ≤ 0) := by
  decide

/-- Claim C8 (amended): every pilot returned by `find_matching_pilots`
matches the required skills and certifications, its location contains the
requested location case-insensitively, its status is Available, and —
whenever a nonzero `maxBudget` is given — its cost is within budget; a
`maxBudget` of 0 (like an absent one) disables the budget filter. -/
theorem C8_find_matching_pilots_filters (pilots : List Pilot)
    (required_skills required_certs : Option String)
    (location start_date end_date : String) (max_budget : Option Int) (p : Pilot)
    (hp : p ∈ find_matching_pilots pilots required_skills required_certs location
      start_date end_date max_budget) :
    skills_match p.skills required_skills = true ∧
    certifications_match p.certifications required_certs = true ∧
    seriesContains p.location location = true ∧
    p.status = "Available" ∧
    ∀ b, max_budget = some b → b ≠ 0 →
      calculate_pilot_cost p.daily_rate_inr start_date end_date ≤ b := by
  rcases max_budget with _ | b
  · unfold find_matching_pilots at hp
    simp only [List.mem_filter, decide_eq_true_eq] at hp
    exact ⟨hp.1.1.1.2, hp.1.1.2, hp.1.2, hp.2, fun b hb => by cases hb⟩
  · by_cases hb0 : b = 0
    · unfold find_matching_pilots at hp
      rw [hb0] at hp
      simp only [List.mem_filter, decide_eq_true_eq, ite_true, if_true] at hp
      refine ⟨hp.1.1.1.2, hp.1.1.2, hp.1.2, hp.2, ?_⟩
      intro b' hb' hne
      rw [Option.some.injEq] at hb'
      exact absurd (by rw [← hb', hb0]) hne
    · unfold find_matching_pilots at hp
      simp only [hb0, if_false, ite_false, List.mem_filter, decide_eq_true_eq] at hp
      refine ⟨hp.1.1.1.1.2, hp.1.1.1.2, hp.1.1.2, hp.1.2, ?_⟩
      intro b' hb' hne
      rw [Option.some.injEq] at hb'
      exact hb' ▸ hp.2

/-- Witness for `C8_find_matching_pilots_filters`: with the nonzero budget
1000 the returned pilot matches the filters and its cost is within budget. -/
theorem C8_find_matching_pilots_filters_witness :
    skills_match C8pilot.skills (some "Thermal") = true ∧
    C8pilot.status = "Available" ∧
    calculate_pilot_cost C8pilot.daily_rate_inr "2024-01-01" "2024-01-05" ≤ 1000 := by
  have h := C8_find_matching_pilots_filters [C8pilot] (some "Thermal") (some "DGCA")
    "Bangalore" "2024-01-01" "2024-01-05" (some 1000) C8pilot (by decide)
  exact ⟨h.1, h.2.2.2.1, h.2.2.2.2 1000 rfl (by decide)⟩

/-- Claim C9: the conflict scan is a read-only, deterministic function of
the fetched store snapshot and the current time: a second run against the
store left by a first run yields the identical report, and the store after
both runs is the one fetched. -/
theorem C9_detect_all_conflicts_idempotent (now : Int) (s : Store) :
    (detect_all_conflicts_run now ((detect_all_conflicts_run now s).2)).1 =
      (detect_all_conflicts_run now s).1 ∧
    (detect_all_conflicts_run now ((detect_all_conflicts_run now s).2)).2 = s :=
  ⟨rfl, rfl⟩

/-- Claim C10: `update_pilot_status` / `update_drone_status` return failure
exactly when the status value is outside the valid enum; with a valid status
they return success even for an unknown id, and an unknown id leaves the
store unchanged. -/
theorem C10_update_status_validation (s : Store) (pilot_id drone_id status : String)
    (assignment : Option String) :
    ((rm_update_pilot_status s pilot_id status assignment).1 = false ↔
      status ∉ pilot_valid_statuses) ∧
    ((∀ p ∈ s.pilots, p.pilot_id ≠ pilot_id) →
      (rm_update_pilot_status s pilot_id status assignment).2 = s) ∧
    ((im_update_drone_status s drone_id status assignment).1 = false ↔
      status ∉ drone_valid_statuses) ∧
    ((∀ d ∈ s.drones, d.drone_id ≠ drone_id) →
      (im_update_drone_status s drone_id status assignment).2 = s) := by
  refine ⟨?_, ?_, ?_, ?_⟩
  · by_cases hv : status ∈ pilot_valid_statuses <;> simp [rm_update_pilot_status, hv]
  · intro h
    have hl : sheets_update_pilot_status s.pilots pilot_id status assignment = s.pilots := by
      apply updateFirst_of_not_hit
      intro x hx
      simpa using h x hx
    by_cases hv : status ∈ pilot_valid_statuses <;>
      simp [rm_update_pilot_status, hv, sheets_update_pilot_status] at hl ⊢ <;>
      simp [hl]
  · by_cases hv : status ∈ drone_valid_statuses <;> simp [im_update_drone_status, hv]
  · intro h
    have hl : sheets_update_drone_status s.drones drone_id status assignment = s.drones := by
      apply updateFirst_of_not_hit
      intro x hx
      simpa using h x hx
    by_cases hv : status ∈ drone_valid_statuses <;>
      simp [im_update_drone_status, hv, sheets_update_drone_status] at hl ⊢ <;>
      simp [hl]

/-- Store fixture for the update-status witness. -/
def C10store : Store :=
  { pilots := [C7pilot], drones := [], missions := [] }

/-- Witness for `C10_update_status_validation`: updating the unknown pilot
`"PX"` with the valid status Assigned succeeds and changes nothing, and an
out-of-enum drone status is rejected. -/
theorem C10_update_status_validation_witness :
    (rm_update_pilot_status C10store "PX" "Assigned" none).1 = true ∧
    (rm_update_pilot_status C10store "PX" "Assigned" none).2 = C10store ∧
    (im_update_drone_status C10store "DX" "Broken" none).1 = false := by
  have h1 := C10_update_status_validation C10store "PX" "DX" "Assigned" none
  have h2 := C10_update_status_validation C10store "PX" "DX" "Broken" none
  refine ⟨?_, h1.2.1 (by decide), h2.2.2.1.mpr (by decide)⟩
  cases hres : (rm_update_pilot_status C10store "PX" "Assigned" none).1
  · exact absurd (h1.1.mp hres) (by decide)
  · rfl
